import Mathlib

/-!
Shallow embedding of the OTP authentication controller
(`src/controllers/auth.controller.js`) of the Travease backend.

The two HTTP handlers `sendOTP` and `verifyOTP` are modelled as pure
functions from their inputs (request body fields, the user store, the
environment configuration, the entropy consumed by `Math.random()`, and
the current clock in milliseconds) to an HTTP response together with the
updated user store.  The user-record store (`../models/user.model`) is not
part of the repository sources; its three operations are modelled from the
spec (section 6, External Interfaces).
-/

/-- A JSON value as it can appear in a request-body field.  Only the
scalar shapes relevant to the two handlers are modelled. -/
inductive JsonVal where
  | str (s : String)
  | num (n : Int)
  | bool (b : Bool)
  | null
deriving DecidableEq

/-- JavaScript truthiness of a scalar JSON value: `""`, `0`, `false` and
`null` are falsy, everything else is truthy. -/
def JsonVal.truthy : JsonVal → Bool
  | .str s => !(s == "")
  | .num n => !(n == 0)
  | .bool b => b
  | .null => false

/-- `String(v)` in JavaScript, on the modelled scalar shapes. -/
def JsonVal.jsToString : JsonVal → String
  | .str s => s
  | .num n => if n < 0 then "-" ++ Nat.repr (-n).toNat else Nat.repr n.toNat
  | .bool b => if b then "true" else "false"
  | .null => "null"

/-- Whether the modelled JSON value is a string. -/
def JsonVal.isStr : JsonVal → Bool
  | .str _ => true
  | _ => false

/-- Truthiness of a possibly absent request-body field: an absent field
reads as `undefined`, which is falsy. -/
def optTruthy : Option JsonVal → Bool
  | some v => v.truthy
  | none => false

/-- The replace call deleting every non-digit: keep only the ASCII decimal digits of `s`. -/
def stripNonDigits (s : String) : String :=
  ⟨s.data.filter Char.isDigit⟩

/-- `String.prototype.trim`, modelled on ASCII whitespace: drop leading
and trailing whitespace characters. -/
def jsTrim (s : String) : String :=
  ⟨((s.data.dropWhile Char.isWhitespace).reverse.dropWhile Char.isWhitespace).reverse⟩

/-- `formatPhoneNumber` (auth.controller.js, lines 33–43): strip every
non-digit character; if the digit sequence does not start with `"91"`,
prepend the India country code `91`; return the result prefixed with
`+`. -/
def formatPhoneNumber (s : String) : String :=
  let digits := stripNonDigits s
  if "91".data.isPrefixOf digits.data then "+" ++ digits else "+91" ++ digits

/-- `formatPhoneNumber` applied to an arbitrary JSON value: on a
non-string, `phoneNumber.replace` is not a function, so the call throws a
`TypeError` (modelled as `none`), which the handlers catch. -/
def formatPhoneNumberVal : JsonVal → Option String
  | .str s => some (formatPhoneNumber s)
  | _ => none

/-- The message of the `TypeError` thrown when `.replace` is called on a
non-string value. -/
def replaceTypeErrorMsg : String := "phoneNumber.replace is not a function"

/-- A persisted user record.  `otpExpires` is a timestamp in milliseconds
since the epoch. -/
structure UserRecord where
  id : Nat
  phoneNumber : String
  otp : Option String
  otpExpires : Option Nat
deriving DecidableEq

/-- Modelled from the spec: the User Store is an abstract collection of
user records keyed by canonical phone number (`user.model` is not among
the repository sources).  It is modelled as a list of records. -/
abbrev UserStore := List UserRecord

/-- Modelled from the spec: `User.findByPhoneNumber(key)` returns the
record whose `phoneNumber` equals the key, if any. -/
def findByPhoneNumber (store : UserStore) (key : String) : Option UserRecord :=
  store.find? (fun u => u.phoneNumber == key)

/-- Modelled from the spec: `User.createOrUpdate({phoneNumber, otp,
otpExpires})` upserts on the phone number — overwrite `otp`/`otpExpires`
of the existing record, or create a fresh record (with a fresh id
`newId`) when absent. -/
def createOrUpdate : UserStore → Nat → String → String → Nat → UserStore
  | [], newId, ph, o, e => [⟨newId, ph, some o, some e⟩]
  | u :: rest, newId, ph, o, e =>
    if u.phoneNumber == ph then
      { u with otp := some o, otpExpires := some e } :: rest
    else
      u :: createOrUpdate rest newId ph o e

/-- Modelled from the spec: `User.clearOTP(key)` clears `otp` and
`otpExpires` on the record with the given phone number. -/
def clearOTP : UserStore → String → UserStore
  | [], _ => []
  | u :: rest, ph =>
    (if u.phoneNumber == ph then { u with otp := none, otpExpires := none } else u)
      :: clearOTP rest ph

/-- The `development: { otp, expiresAt }` block of the dev-fallback
response of `sendOTP`. -/
structure DevBlock where
  otp : String
  expiresAt : Nat
deriving DecidableEq

/-- The `debug` block of the invalid-OTP-format response of `verifyOTP`. -/
structure DebugBlock where
  providedOtp : JsonVal
  cleanOtp : String
  isValid : Bool
deriving DecidableEq

/-- The payload signed into the session token by `verifyOTP`
(the jwt sign call on id and phoneNumber with a validity of 7 days). -/
structure TokenPayload where
  id : Nat
  phoneNumber : String
  expiresInDays : Nat
deriving DecidableEq

/-- An HTTP JSON response as produced by the two handlers: status code,
the `success` and `message` fields, and the optional `development`,
`error`, `debug` and `token` fields. -/
structure Response where
  status : Nat
  success : Bool
  message : String
  development : Option DevBlock
  errMsg : Option String
  debug : Option DebugBlock
  token : Option TokenPayload
deriving DecidableEq

/-- A response carrying only `success` and `message`. -/
def baseResp (st : Nat) (ok : Bool) (msg : String) : Response :=
  ⟨st, ok, msg, none, none, none, none⟩

/-- The process environment as the controller reads it:
`twilioConfigured` is `client && process.env.TWILIO_PHONE_NUMBER`,
`isProduction` is whether NODE_ENV equals production, and
`smsSendSucceeds` is the outcome of `client.messages.create` when it is
attempted. -/
structure SendConfig where
  twilioConfigured : Bool
  isProduction : Bool
  smsSendSucceeds : Bool
deriving DecidableEq

/-- `Math.floor(100000 + Math.random() * 900000)` (line 64): since
`Math.random()` ranges over `[0, 1)`, `Math.floor(Math.random() *
900000)` ranges over `0 … 899999`; the entropy `k` selects that value as
`k % 900000`. -/
def genOtpNat (k : Nat) : Nat := 100000 + k % 900000

/-- `sendOTP` (auth.controller.js, lines 46–126).  Inputs besides the
configuration and the store: the request-body `phoneNumber` field, the
entropy `k` consumed by `Math.random()`, the clock `now` (`Date.now()`,
milliseconds), and the id `newId` given to a freshly created record.
Returns the HTTP response and the updated store. -/
def sendOTP (cfg : SendConfig) (store : UserStore) (phoneNumber : Option JsonVal)
    (k now newId : Nat) : Response × UserStore :=
  if optTruthy phoneNumber = false then
    (baseResp 400 false "Phone number is required", store)
  else
    match formatPhoneNumberVal (phoneNumber.getD JsonVal.null) with
    | none =>
      ({ baseResp 500 false "Failed to generate and send OTP" with
         errMsg := if cfg.isProduction then none else some replaceTypeErrorMsg }, store)
    | some formatted =>
      let otp := Nat.repr (genOtpNat k)
      let otpExpires := now + 10 * 60 * 1000
      let store2 := createOrUpdate store newId formatted otp otpExpires
      if cfg.twilioConfigured then
        if cfg.smsSendSucceeds then
          (baseResp 200 true "OTP sent successfully", store2)
        else if cfg.isProduction then
          (baseResp 500 false "Failed to send OTP via SMS", store2)
        else
          ({ baseResp 200 true "OTP generated successfully" with
             development := some ⟨otp, otpExpires⟩ }, store2)
      else
        ({ baseResp 200 true "OTP generated successfully" with
           development := some ⟨otp, otpExpires⟩ }, store2)

/-- `/^\d{6}$/.test s`: exactly six ASCII digits. -/
def isSixDigits (s : String) : Bool :=
  s.length == 6 && s.data.all Char.isDigit

/-- `user.otpExpires && user.otpExpires < new Date()` (line 205): a
missing expiry is falsy and skips the comparison. -/
def jsExpired (otpExpires : Option Nat) (now : Nat) : Bool :=
  match otpExpires with
  | some e => decide (e < now)
  | none => false

/-- Result of `verifyOTP`: the response, the updated store, and whether
the handler reached the `User.findByPhoneNumber` call (line 181). -/
structure VerifyResult where
  resp : Response
  store : UserStore
  storeAccessed : Bool
deriving DecidableEq

/-- `verifyOTP` (auth.controller.js, lines 136–243). -/
def verifyOTP (store : UserStore) (phoneNumber otpIn : Option JsonVal)
    (now : Nat) : VerifyResult :=
  if optTruthy phoneNumber = false then
    ⟨baseResp 400 false "Phone number is required", store, false⟩
  else if optTruthy otpIn = false then
    ⟨baseResp 400 false "OTP is required", store, false⟩
  else
    let otpVal := otpIn.getD JsonVal.null
    let cleanOtp := jsTrim otpVal.jsToString
    if isSixDigits cleanOtp = false then
      ⟨{ baseResp 400 false "Please enter a valid 6-digit OTP" with
         debug := some ⟨otpVal, cleanOtp, isSixDigits cleanOtp⟩ }, store, false⟩
    else
      match formatPhoneNumberVal (phoneNumber.getD JsonVal.null) with
      | none =>
        ⟨{ baseResp 500 false "Server error" with
           errMsg := some replaceTypeErrorMsg }, store, false⟩
      | some formatted =>
        match findByPhoneNumber store formatted with
        | none => ⟨baseResp 404 false "User not found", store, true⟩
        | some user =>
          match user.otp with
          | none =>
            ⟨baseResp 400 false "No OTP found. Please request a new OTP", store, true⟩
          | some storedOtpRaw =>
            if jsExpired user.otpExpires now then
              ⟨baseResp 400 false "OTP has expired. Please request a new OTP", store, true⟩
            else
              let storedOtp := jsTrim storedOtpRaw
              if storedOtp == cleanOtp then
                ⟨{ baseResp 200 true "OTP verified successfully" with
                   token := some ⟨user.id, formatted, 7⟩ }, clearOTP store formatted, true⟩
              else
                ⟨baseResp 400 false "Invalid OTP. Please try again", store, true⟩

/-! ### Properties of the decimal rendering `Nat.repr` -/

/-- Each of the ten decimal digit characters is an ASCII digit and not
whitespace. -/
theorem digitChar_ok : ∀ m, m < 10 →
    (Nat.digitChar m).isDigit = true ∧ (Nat.digitChar m).isWhitespace = false := by
  decide

/-- Every character `Nat.toDigitsCore 10` adds to the accumulator is a
decimal digit character. -/
theorem toDigitsCore_mem : ∀ (f n : Nat) (acc : List Char),
    (∀ c ∈ acc, c.isDigit = true ∧ c.isWhitespace = false) →
    ∀ c ∈ Nat.toDigitsCore 10 f n acc, c.isDigit = true ∧ c.isWhitespace = false := by
  intro f
  induction f with
  | zero => intro n acc hacc; simpa [Nat.toDigitsCore] using hacc
  | succ f ih =>
    intro n acc hacc
    have hcons : ∀ c ∈ Nat.digitChar (n % 10) :: acc,
        c.isDigit = true ∧ c.isWhitespace = false := by
      intro c hc
      rcases List.mem_cons.mp hc with h | h
      · exact h ▸ digitChar_ok (n % 10) (Nat.mod_lt _ (by omega))
      · exact hacc c h
    simp only [Nat.toDigitsCore]
    by_cases h10 : n / 10 = 0
    · simpa [h10] using hcons
    · simpa [h10] using ih (n / 10) (Nat.digitChar (n % 10) :: acc) hcons

/-- `Nat.toDigitsCore 10` with enough fuel appends exactly `e + 1`
characters for a number in `[10 ^ e, 10 ^ (e + 1))`. -/
theorem toDigitsCore_len : ∀ (f e n : Nat) (acc : List Char),
    10 ^ e ≤ n → n < 10 ^ (e + 1) → e + 1 ≤ f →
    (Nat.toDigitsCore 10 f n acc).length = acc.length + (e + 1) := by
  intro f
  induction f with
  | zero => intro e n acc _ _ hf; omega
  | succ f ih =>
    intro e n acc hlo hhi hf
    simp only [Nat.toDigitsCore]
    by_cases h10 : n / 10 = 0
    · have hn : n < 10 := by omega
      have he : e = 0 := by
        by_contra hne
        have h1 : 1 ≤ e := by omega
        have : (10 : Nat) ^ 1 ≤ 10 ^ e := Nat.pow_le_pow_right (by omega) h1
        simp [pow_one] at this
        omega
      simp [h10, he]
    · have hn10 : 10 ≤ n := by
        by_contra hlt
        exact h10 (Nat.div_eq_of_lt (by omega))
      have he : e ≠ 0 := by
        intro he0
        rw [he0] at hhi
        simp [pow_one] at hhi
        omega
      obtain ⟨e2, rfl⟩ : ∃ e2, e = e2 + 1 := ⟨e - 1, by omega⟩
      have hlo2 : 10 ^ e2 ≤ n / 10 := by
        rw [Nat.le_div_iff_mul_le (by omega)]
        calc 10 ^ e2 * 10 = 10 ^ (e2 + 1) := by ring
        _ ≤ n := hlo
      have hhi2 : n / 10 < 10 ^ (e2 + 1) := by
        rw [Nat.div_lt_iff_lt_mul (by omega)]
        calc n < 10 ^ (e2 + 1 + 1) := hhi
        _ = 10 ^ (e2 + 1) * 10 := by ring
      have := ih e2 (n / 10) (Nat.digitChar (n % 10) :: acc) hlo2 hhi2 (by omega)
      simp only [h10, if_false]
      simp only [List.length_cons] at this
      omega

/-- For `n` between `100000` and `999999`, `Nat.repr n` (the model of the
JavaScript `.toString()` at line 64) has exactly six characters, all of
them ASCII digits and none of them whitespace. -/
theorem repr_six (n : Nat) (h1 : 100000 ≤ n) (h2 : n ≤ 999999) :
    (Nat.repr n).length = 6 ∧
      ∀ c ∈ (Nat.repr n).data, c.isDigit = true ∧ c.isWhitespace = false := by
  have hdata : (Nat.repr n).data = Nat.toDigitsCore 10 (n + 1) n [] := rfl
  constructor
  · show (Nat.repr n).data.length = 6
    rw [hdata]
    have := toDigitsCore_len (n + 1) 5 n [] (by omega) (by norm_num; omega) (by omega)
    simpa using this
  · rw [hdata]
    exact toDigitsCore_mem (n + 1) n [] (by simp)

/-- Dropping a prefix of elements satisfying `p` from a list none of
whose elements satisfies `p` is the identity. -/
theorem dropWhile_eq_self_of_none {p : Char → Bool} {l : List Char}
    (h : ∀ c ∈ l, p c = false) : l.dropWhile p = l := by
  cases l with
  | nil => rfl
  | cons a t =>
    have : p a = false := h a (List.mem_cons_self a t)
    simp [List.dropWhile_cons, this]

/-- Trimming a string with no whitespace characters is the identity. -/
theorem jsTrim_eq_self {s : String} (h : ∀ c ∈ s.data, c.isWhitespace = false) :
    jsTrim s = s := by
  unfold jsTrim
  rw [dropWhile_eq_self_of_none h]
  rw [dropWhile_eq_self_of_none (fun c hc => h c (List.mem_reverse.mp hc))]
  rw [List.reverse_reverse]

/-- The decimal rendering of a number in `[100000, 999999]` passes the
`/^\d{6}$/` test. -/
theorem isSixDigits_repr (n : Nat) (h1 : 100000 ≤ n) (h2 : n ≤ 999999) :
    isSixDigits (Nat.repr n) = true := by
  obtain ⟨hlen, hmem⟩ := repr_six n h1 h2
  unfold isSixDigits
  rw [hlen]
  simp only [beq_self_eq_true, Bool.true_and, List.all_eq_true]
  intro c hc
  exact (hmem c hc).1

/-- The generated code `genOtpNat k` always lies in `[100000, 999999]`. -/
theorem genOtpNat_range (k : Nat) : 100000 ≤ genOtpNat k ∧ genOtpNat k ≤ 999999 := by
  unfold genOtpNat
  have := Nat.mod_lt k (show 0 < 900000 by omega)
  omega

/-- Trimming the stored generated code is the identity (it contains no
whitespace). -/
theorem jsTrim_repr_genOtp (k : Nat) :
    jsTrim (Nat.repr (genOtpNat k)) = Nat.repr (genOtpNat k) := by
  obtain ⟨h1, h2⟩ := genOtpNat_range k
  exact jsTrim_eq_self (fun c hc => ((repr_six _ h1 h2).2 c hc).2)

/-! ### Store lemmas -/

/-- After an upsert, lookup with the same key finds a record carrying the
written `otp` and `otpExpires` (and the key itself as phone number). -/
theorem find_createOrUpdate (st : UserStore) (nid : Nat) (ph o : String) (e : Nat) :
    ∃ i, findByPhoneNumber (createOrUpdate st nid ph o e) ph =
      some ⟨i, ph, some o, some e⟩ := by
  induction st with
  | nil => exact ⟨nid, by simp [createOrUpdate, findByPhoneNumber, List.find?]⟩
  | cons u rest ih =>
    by_cases hu : u.phoneNumber = ph
    · refine ⟨u.id, ?_⟩
      simp [createOrUpdate, findByPhoneNumber, List.find?, hu]
    · obtain ⟨i, hi⟩ := ih
      refine ⟨i, ?_⟩
      unfold findByPhoneNumber at hi
      simp [createOrUpdate, findByPhoneNumber, List.find?, hu, hi]

/-- Clearing commutes with lookup: the record found after `clearOTP` is
the one found before, with `otp` and `otpExpires` set to `none`. -/
theorem find_clearOTP (st : UserStore) (ph : String) :
    findByPhoneNumber (clearOTP st ph) ph =
      (findByPhoneNumber st ph).map
        (fun u => { u with otp := none, otpExpires := none }) := by
  induction st with
  | nil => rfl
  | cons u rest ih =>
    by_cases hu : u.phoneNumber = ph
    · simp [clearOTP, findByPhoneNumber, List.find?, hu]
    · have hb : (u.phoneNumber == ph) = false := by simp [hu]
      unfold findByPhoneNumber at ih
      simp [clearOTP, findByPhoneNumber, List.find?, hu, hb, ih]

/-! ### Path lemmas for `verifyOTP` -/

/-- A candidate whose trimmed form passes the six-digit test is not the
empty string (so it is truthy). -/
theorem ne_empty_of_sixDigits {cand : String} (h : isSixDigits (jsTrim cand) = true) :
    cand ≠ "" := by
  intro hc
  subst hc
  exact absurd h (by decide)

/-- The successful verification path: matching, unexpired code. -/
theorem verifyOTP_success_path (store : UserStore) (raw cand : String) (now : Nat)
    (user : UserRecord) (stored : String)
    (hraw : raw ≠ "") (hsix : isSixDigits (jsTrim cand) = true)
    (hfind : findByPhoneNumber store (formatPhoneNumber raw) = some user)
    (hotp : user.otp = some stored)
    (hexp : jsExpired user.otpExpires now = false)
    (heq : jsTrim stored = jsTrim cand) :
    verifyOTP store (some (.str raw)) (some (.str cand)) now =
      ⟨{ baseResp 200 true "OTP verified successfully" with
         token := some ⟨user.id, formatPhoneNumber raw, 7⟩ },
       clearOTP store (formatPhoneNumber raw), true⟩ := by
  have hcand := ne_empty_of_sixDigits hsix
  simp [verifyOTP, optTruthy, JsonVal.truthy, JsonVal.jsToString, formatPhoneNumberVal,
    hraw, hcand, hsix, hfind, hotp, hexp, heq]

/-- The no-outstanding-code path. -/
theorem verifyOTP_noOtp_path (store : UserStore) (raw cand : String) (now : Nat)
    (user : UserRecord)
    (hraw : raw ≠ "") (hsix : isSixDigits (jsTrim cand) = true)
    (hfind : findByPhoneNumber store (formatPhoneNumber raw) = some user)
    (hotp : user.otp = none) :
    verifyOTP store (some (.str raw)) (some (.str cand)) now =
      ⟨baseResp 400 false "No OTP found. Please request a new OTP", store, true⟩ := by
  have hcand := ne_empty_of_sixDigits hsix
  simp [verifyOTP, optTruthy, JsonVal.truthy, JsonVal.jsToString, formatPhoneNumberVal,
    hraw, hcand, hsix, hfind, hotp]

/-- The expired-code path. -/
theorem verifyOTP_expired_path (store : UserStore) (raw cand : String) (now : Nat)
    (user : UserRecord) (stored : String)
    (hraw : raw ≠ "") (hsix : isSixDigits (jsTrim cand) = true)
    (hfind : findByPhoneNumber store (formatPhoneNumber raw) = some user)
    (hotp : user.otp = some stored)
    (hexp : jsExpired user.otpExpires now = true) :
    verifyOTP store (some (.str raw)) (some (.str cand)) now =
      ⟨baseResp 400 false "OTP has expired. Please request a new OTP", store, true⟩ := by
  have hcand := ne_empty_of_sixDigits hsix
  simp [verifyOTP, optTruthy, JsonVal.truthy, JsonVal.jsToString, formatPhoneNumberVal,
    hraw, hcand, hsix, hfind, hotp, hexp]

/-- The mismatching-code path. -/
theorem verifyOTP_mismatch_path (store : UserStore) (raw cand : String) (now : Nat)
    (user : UserRecord) (stored : String)
    (hraw : raw ≠ "") (hsix : isSixDigits (jsTrim cand) = true)
    (hfind : findByPhoneNumber store (formatPhoneNumber raw) = some user)
    (hotp : user.otp = some stored)
    (hexp : jsExpired user.otpExpires now = false)
    (hne : jsTrim stored ≠ jsTrim cand) :
    verifyOTP store (some (.str raw)) (some (.str cand)) now =
      ⟨baseResp 400 false "Invalid OTP. Please try again", store, true⟩ := by
  have hcand := ne_empty_of_sixDigits hsix
  simp [verifyOTP, optTruthy, JsonVal.truthy, JsonVal.jsToString, formatPhoneNumberVal,
    hraw, hcand, hsix, hfind, hotp, hexp, hne]

/-- On a truthy string input, `sendOTP` always upserts the generated code
and its expiry against the normalized number, whatever the delivery
outcome. -/
theorem sendOTP_store (cfg : SendConfig) (store : UserStore) (raw : String)
    (k now nid : Nat) (hraw : raw ≠ "") :
    (sendOTP cfg store (some (.str raw)) k now nid).2 =
      createOrUpdate store nid (formatPhoneNumber raw)
        (Nat.repr (genOtpNat k)) (now + 10 * 60 * 1000) := by
  rcases cfg with ⟨tw, prod, sms⟩
  cases tw <;> cases prod <;> cases sms <;>
    simp [sendOTP, optTruthy, JsonVal.truthy, formatPhoneNumberVal, hraw]

/-! ### Claims -/

/-- C1: the claim says a production `sendOTP` response never carries the
generated code; but with production configuration and Twilio not
configured, `sendOTP` answers 200 with the `development` block holding
the code and its expiry — the dev fallback (lines 107–116) is not gated
on `NODE_ENV`, contradicting its own "(development mode only)" log
line. -/
theorem C1_sendOTP_production_leaks_otp :
    ((sendOTP ⟨false, true, true⟩ [] (some (.str "5551234567")) 0 0 1).1).status = 200 ∧
    ((sendOTP ⟨false, true, true⟩ [] (some (.str "5551234567")) 0 0 1).1).development =
      some ⟨"100000", 600000⟩ := by
  decide

/-- C2 counterexample: issuing for `"+15551234567"` and verifying with
the captured dev-mode code yields a token whose embedded phone number is
`"+9115551234567"`, not `"+15551234567"` — the normalizer prepends `91`
because the digit sequence does not start with `91`. -/
theorem C2_token_phone_counterexample :
    ((sendOTP ⟨false, false, true⟩ [] (some (.str "+15551234567")) 0 0 1).1).development =
      some ⟨"100000", 600000⟩ ∧
    (verifyOTP (sendOTP ⟨false, false, true⟩ [] (some (.str "+15551234567")) 0 0 1).2
        (some (.str "+15551234567")) (some (.str "100000")) 0).resp.token =
      some ⟨1, "+9115551234567", 7⟩ ∧
    "+9115551234567" ≠ "+15551234567" := by
  decide

/-- C2 (amended): issuing an OTP for the raw phone number
`"+15551234567"` (no Twilio configured, so the code is returned in the
`development` block) and then verifying with that code yields a session
token whose embedded phone number is the normalized key
`"+9115551234567"`, for every entropy value, clock value and fresh
record id. -/
theorem C2_issue_verify_roundtrip (k now nid : Nat) :
    ((sendOTP ⟨false, false, true⟩ [] (some (.str "+15551234567")) k now nid).1).development =
      some ⟨Nat.repr (genOtpNat k), now + 10 * 60 * 1000⟩ ∧
    (verifyOTP (sendOTP ⟨false, false, true⟩ [] (some (.str "+15551234567")) k now nid).2
        (some (.str "+15551234567")) (some (.str (Nat.repr (genOtpNat k)))) now).resp.token =
      some ⟨nid, "+9115551234567", 7⟩ := by
  obtain ⟨hlo, hhi⟩ := genOtpNat_range k
  have hsix : isSixDigits (jsTrim (Nat.repr (genOtpNat k))) = true := by
    rw [jsTrim_repr_genOtp]
    exact isSixDigits_repr _ hlo hhi
  have hstore := sendOTP_store ⟨false, false, true⟩ [] "+15551234567" k now nid (by decide)
  have hfmt : formatPhoneNumber "+15551234567" = "+9115551234567" := by decide
  constructor
  · simp [sendOTP, optTruthy, JsonVal.truthy, formatPhoneNumberVal]
  · rw [hstore, hfmt]
    have hfind : findByPhoneNumber
        (createOrUpdate [] nid "+9115551234567" (Nat.repr (genOtpNat k)) (now + 10 * 60 * 1000))
        (formatPhoneNumber "+15551234567") =
        some ⟨nid, "+9115551234567", some (Nat.repr (genOtpNat k)), some (now + 10 * 60 * 1000)⟩ := by
      rw [hfmt]
      simp [createOrUpdate, findByPhoneNumber, List.find?]
    have h := verifyOTP_success_path
      (createOrUpdate [] nid "+9115551234567" (Nat.repr (genOtpNat k)) (now + 10 * 60 * 1000))
      "+15551234567" (Nat.repr (genOtpNat k)) now
      ⟨nid, "+9115551234567", some (Nat.repr (genOtpNat k)), some (now + 10 * 60 * 1000)⟩
      (Nat.repr (genOtpNat k)) (by decide) hsix hfind rfl
      (by simp [jsExpired]) rfl
    rw [h, hfmt]

/-- C3 counterexample: a malformed-code 400 from `verifyOTP` carries a
`debug` diagnostic block; `verifyOTP` reads no configuration at all, so
this error response is identical under production, where the claim says
every error response is the bare `{success, message}` envelope. -/
theorem C3_debug_in_production_counterexample :
    (verifyOTP [] (some (.str "5551234567")) (some (.str "12345")) 0).resp.status = 400 ∧
    (verifyOTP [] (some (.str "5551234567")) (some (.str "12345")) 0).resp.debug ≠ none := by
  decide

/-- C3 (amended): only `sendOTP` gates its diagnostics — under production
configuration its error responses never carry an `error` field; but
`verifyOTP` is configuration-independent and includes diagnostics
unconditionally: its malformed-code 400 always carries a `debug` block,
and its catch-all 500 (non-string phone number with a well-formed code)
always carries the underlying error message. -/
theorem C3_diagnostics_gating (cfg : SendConfig) (store : UserStore)
    (pv : Option JsonVal) (k now nid : Nat)
    (st2 : UserStore) (pn ot : Option JsonVal) (now2 : Nat)
    (st3 : UserStore) (pn3 ot3 : Option JsonVal) (now3 : Nat)
    (hprod : cfg.isProduction = true)
    (hpn : optTruthy pn = true) (hot : optTruthy ot = true)
    (hbad : isSixDigits (jsTrim ((ot.getD JsonVal.null).jsToString)) = false)
    (hpn3 : optTruthy pn3 = true) (hstr3 : (pn3.getD JsonVal.null).isStr = false)
    (hot3 : optTruthy ot3 = true)
    (hgood3 : isSixDigits (jsTrim ((ot3.getD JsonVal.null).jsToString)) = true) :
    ((sendOTP cfg store pv k now nid).1).errMsg = none ∧
    (verifyOTP st2 pn ot now2).resp.debug ≠ none ∧
    (verifyOTP st3 pn3 ot3 now3).resp.errMsg ≠ none := by
  refine ⟨?_, ?_, ?_⟩
  · rcases cfg with ⟨tw, prod, sms⟩
    simp only [SendConfig.isProduction] at hprod
    subst hprod
    by_cases hpv : optTruthy pv = false
    · simp [sendOTP, hpv, baseResp]
    · rcases hfmt : formatPhoneNumberVal (pv.getD JsonVal.null) with _ | formatted
      · simp [sendOTP, hpv, hfmt, baseResp]
      · cases tw <;> cases sms <;> simp [sendOTP, hpv, hfmt, baseResp]
  · simp [verifyOTP, hpn, hot, hbad, baseResp]
  · have hfmt3 : formatPhoneNumberVal (pn3.getD JsonVal.null) = none := by
      rcases pn3 with _ | v
      · rfl
      · rcases v with s | n | b | _ <;> first | rfl | simp [JsonVal.isStr] at hstr3
    simp [verifyOTP, hpn3, hot3, hgood3, hfmt3, baseResp]

/-- C3 witness: the amended gating theorem at concrete inputs. -/
theorem C3_diagnostics_gating_witness :
    ((sendOTP ⟨false, true, true⟩ [] (some (.str "5551234567")) 0 0 1).1).errMsg = none ∧
    (verifyOTP [] (some (.str "5551234567")) (some (.str "12345")) 0).resp.debug ≠ none ∧
    (verifyOTP [] (some (.num 5551234567)) (some (.str "123456")) 0).resp.errMsg ≠ none :=
  C3_diagnostics_gating ⟨false, true, true⟩ [] (some (.str "5551234567")) 0 0 1
    [] (some (.str "5551234567")) (some (.str "12345")) 0
    [] (some (.num 5551234567)) (some (.str "123456")) 0
    (by decide) (by decide) (by decide) (by decide) (by decide) (by decide)
    (by decide) (by decide)

/-- C4: when the looked-up record holds an outstanding, unexpired code
equal as a trimmed string to the trimmed candidate, `verifyOTP` answers
200 with a token embedding the user id and the normalized number with a
7-day validity window, the `otp` and `otpExpires` of the record are cleared,
and a second attempt with the same code fails with 400 "No OTP found"
(single-use consumption). -/
theorem C4_verify_consumes_otp (store : UserStore) (raw cand : String) (now : Nat)
    (user : UserRecord) (stored : String)
    (hraw : raw ≠ "") (hsix : isSixDigits (jsTrim cand) = true)
    (hfind : findByPhoneNumber store (formatPhoneNumber raw) = some user)
    (hotp : user.otp = some stored)
    (hexp : jsExpired user.otpExpires now = false)
    (heq : jsTrim stored = jsTrim cand) :
    (verifyOTP store (some (.str raw)) (some (.str cand)) now).resp.status = 200 ∧
    (verifyOTP store (some (.str raw)) (some (.str cand)) now).resp.token =
      some ⟨user.id, formatPhoneNumber raw, 7⟩ ∧
    findByPhoneNumber (verifyOTP store (some (.str raw)) (some (.str cand)) now).store
        (formatPhoneNumber raw) =
      some { user with otp := none, otpExpires := none } ∧
    (verifyOTP (verifyOTP store (some (.str raw)) (some (.str cand)) now).store
        (some (.str raw)) (some (.str cand)) now).resp.status = 400 ∧
    (verifyOTP (verifyOTP store (some (.str raw)) (some (.str cand)) now).store
        (some (.str raw)) (some (.str cand)) now).resp.message =
      "No OTP found. Please request a new OTP" := by
  have h1 := verifyOTP_success_path store raw cand now user stored
    hraw hsix hfind hotp hexp heq
  have hfind2 : findByPhoneNumber
      (verifyOTP store (some (.str raw)) (some (.str cand)) now).store
      (formatPhoneNumber raw) = some { user with otp := none, otpExpires := none } := by
    rw [h1]
    show findByPhoneNumber (clearOTP store (formatPhoneNumber raw)) (formatPhoneNumber raw) = _
    rw [find_clearOTP, hfind]
    rfl
  have h2 := verifyOTP_noOtp_path
    (verifyOTP store (some (.str raw)) (some (.str cand)) now).store raw cand now
    { user with otp := none, otpExpires := none } hraw hsix hfind2 rfl
  refine ⟨?_, ?_, hfind2, ?_, ?_⟩
  · rw [h1]
    rfl
  · rw [h1]
  · rw [h2]
    rfl
  · rw [h2]
    rfl

/-- C4 witness: the consumption theorem at a concrete store. -/
theorem C4_verify_consumes_otp_witness :
    (verifyOTP [⟨1, "+915551234567", some "123456", some 1000⟩]
        (some (.str "5551234567")) (some (.str "123456")) 500).resp.status = 200 ∧
    (verifyOTP [⟨1, "+915551234567", some "123456", some 1000⟩]
        (some (.str "5551234567")) (some (.str "123456")) 500).resp.token =
      some ⟨1, formatPhoneNumber "5551234567", 7⟩ ∧
    findByPhoneNumber (verifyOTP [⟨1, "+915551234567", some "123456", some 1000⟩]
        (some (.str "5551234567")) (some (.str "123456")) 500).store
        (formatPhoneNumber "5551234567") =
      some ⟨1, "+915551234567", none, none⟩ ∧
    (verifyOTP (verifyOTP [⟨1, "+915551234567", some "123456", some 1000⟩]
        (some (.str "5551234567")) (some (.str "123456")) 500).store
        (some (.str "5551234567")) (some (.str "123456")) 500).resp.status = 400 ∧
    (verifyOTP (verifyOTP [⟨1, "+915551234567", some "123456", some 1000⟩]
        (some (.str "5551234567")) (some (.str "123456")) 500).store
        (some (.str "5551234567")) (some (.str "123456")) 500).resp.message =
      "No OTP found. Please request a new OTP" :=
  C4_verify_consumes_otp [⟨1, "+915551234567", some "123456", some 1000⟩]
    "5551234567" "123456" 500 ⟨1, "+915551234567", some "123456", some 1000⟩ "123456"
    (by decide) (by decide) (by decide) (by decide) (by decide) (by decide)

/-- C5: a verification attempt that fails because the code is expired, or
because the unexpired stored code mismatches the candidate, leaves the
store — and hence the `otp`/`otpExpires` of the record — exactly unchanged,
answering 400. -/
theorem C5_failed_verify_preserves_store (store : UserStore) (raw cand : String)
    (now : Nat) (user : UserRecord) (stored : String)
    (hraw : raw ≠ "") (hsix : isSixDigits (jsTrim cand) = true)
    (hfind : findByPhoneNumber store (formatPhoneNumber raw) = some user)
    (hotp : user.otp = some stored)
    (hfail : jsExpired user.otpExpires now = true ∨
      (jsExpired user.otpExpires now = false ∧ jsTrim stored ≠ jsTrim cand)) :
    (verifyOTP store (some (.str raw)) (some (.str cand)) now).store = store ∧
    (verifyOTP store (some (.str raw)) (some (.str cand)) now).resp.status = 400 := by
  rcases hfail with hexp | ⟨hexp, hne⟩
  · have h := verifyOTP_expired_path store raw cand now user stored
      hraw hsix hfind hotp hexp
    rw [h]
    exact ⟨rfl, rfl⟩
  · have h := verifyOTP_mismatch_path store raw cand now user stored
      hraw hsix hfind hotp hexp hne
    rw [h]
    exact ⟨rfl, rfl⟩

/-- C5 witness: the frame theorem at a concrete mismatching attempt. -/
theorem C5_failed_verify_preserves_store_witness :
    (verifyOTP [⟨1, "+915551234567", some "123456", some 1000⟩]
        (some (.str "5551234567")) (some (.str "654321")) 500).store =
      [⟨1, "+915551234567", some "123456", some 1000⟩] ∧
    (verifyOTP [⟨1, "+915551234567", some "123456", some 1000⟩]
        (some (.str "5551234567")) (some (.str "654321")) 500).resp.status = 400 :=
  C5_failed_verify_preserves_store [⟨1, "+915551234567", some "123456", some 1000⟩]
    "5551234567" "654321" 500 ⟨1, "+915551234567", some "123456", some 1000⟩ "123456"
    (by decide) (by decide) (by decide) (by decide) (by decide)

/-- C6: whenever the candidate code does not trim to exactly six ASCII
digits, `verifyOTP` answers 400 without ever reaching the
`findByPhoneNumber` call, and the store is untouched. -/
theorem C6_malformed_otp_rejected_before_store (store : UserStore)
    (pn ot : Option JsonVal) (now : Nat)
    (hbad : isSixDigits (jsTrim ((ot.getD JsonVal.null).jsToString)) = false) :
    (verifyOTP store pn ot now).resp.status = 400 ∧
    (verifyOTP store pn ot now).resp.success = false ∧
    (verifyOTP store pn ot now).storeAccessed = false ∧
    (verifyOTP store pn ot now).store = store := by
  by_cases hpn : optTruthy pn = false
  · simp [verifyOTP, hpn, baseResp]
  · by_cases hot : optTruthy ot = false
    · simp [verifyOTP, hpn, hot, baseResp]
    · simp [verifyOTP, hpn, hot, hbad, baseResp]

/-- C6 witness: the early-rejection theorem at the example from the spec,
`"12a45b"`. -/
theorem C6_malformed_otp_rejected_before_store_witness :
    (verifyOTP [] (some (.str "9876543210")) (some (.str "12a45b")) 0).resp.status = 400 ∧
    (verifyOTP [] (some (.str "9876543210")) (some (.str "12a45b")) 0).resp.success = false ∧
    (verifyOTP [] (some (.str "9876543210")) (some (.str "12a45b")) 0).storeAccessed = false ∧
    (verifyOTP [] (some (.str "9876543210")) (some (.str "12a45b")) 0).store = [] :=
  C6_malformed_otp_rejected_before_store [] (some (.str "9876543210"))
    (some (.str "12a45b")) 0 (by decide)

/-- C7: for every entropy value the generated code is an integer in
`[100000, 999999]`, rendered (by `.toString()`, modelled as `Nat.repr`)
as a string of exactly six ASCII digits, and the upserted record stores
that string with `otpExpires` equal to the issue-time clock plus ten
minutes. -/
theorem C7_otp_range_and_expiry (cfg : SendConfig) (store : UserStore) (raw : String)
    (k now nid : Nat) (hraw : raw ≠ "") :
    100000 ≤ genOtpNat k ∧ genOtpNat k ≤ 999999 ∧
    (Nat.repr (genOtpNat k)).length = 6 ∧
    (∀ c ∈ (Nat.repr (genOtpNat k)).data, c.isDigit = true) ∧
    ∃ i, findByPhoneNumber (sendOTP cfg store (some (.str raw)) k now nid).2
        (formatPhoneNumber raw) =
      some ⟨i, formatPhoneNumber raw, some (Nat.repr (genOtpNat k)),
            some (now + 10 * 60 * 1000)⟩ := by
  obtain ⟨hlo, hhi⟩ := genOtpNat_range k
  obtain ⟨hlen, hmem⟩ := repr_six (genOtpNat k) hlo hhi
  refine ⟨hlo, hhi, hlen, fun c hc => (hmem c hc).1, ?_⟩
  rw [sendOTP_store cfg store raw k now nid hraw]
  exact find_createOrUpdate store nid (formatPhoneNumber raw)
    (Nat.repr (genOtpNat k)) (now + 10 * 60 * 1000)

/-- C7 witness: the issue theorem at concrete inputs. -/
theorem C7_otp_range_and_expiry_witness :
    100000 ≤ genOtpNat 424242 ∧ genOtpNat 424242 ≤ 999999 ∧
    (Nat.repr (genOtpNat 424242)).length = 6 ∧
    (∀ c ∈ (Nat.repr (genOtpNat 424242)).data, c.isDigit = true) ∧
    ∃ i, findByPhoneNumber
        (sendOTP ⟨true, true, true⟩ [] (some (.str "9876543210")) 424242 1000 7).2
        (formatPhoneNumber "9876543210") =
      some ⟨i, formatPhoneNumber "9876543210", some (Nat.repr (genOtpNat 424242)),
            some (1000 + 10 * 60 * 1000)⟩ :=
  C7_otp_range_and_expiry ⟨true, true, true⟩ [] "9876543210" 424242 1000 7 (by decide)

/-- C8: when the looked-up record has an outstanding code but no
`otpExpires`, the expiry check is skipped and a matching code verifies
successfully at any clock value whatsoever. -/
theorem C8_missing_expiry_skips_check (store : UserStore) (raw cand : String)
    (now : Nat) (user : UserRecord) (stored : String)
    (hraw : raw ≠ "") (hsix : isSixDigits (jsTrim cand) = true)
    (hfind : findByPhoneNumber store (formatPhoneNumber raw) = some user)
    (hotp : user.otp = some stored)
    (hnoexp : user.otpExpires = none)
    (heq : jsTrim stored = jsTrim cand) :
    (verifyOTP store (some (.str raw)) (some (.str cand)) now).resp.status = 200 ∧
    (verifyOTP store (some (.str raw)) (some (.str cand)) now).resp.success = true ∧
    (verifyOTP store (some (.str raw)) (some (.str cand)) now).resp.token =
      some ⟨user.id, formatPhoneNumber raw, 7⟩ := by
  have hexp : jsExpired user.otpExpires now = false := by
    rw [hnoexp]
    rfl
  have h := verifyOTP_success_path store raw cand now user stored
    hraw hsix hfind hotp hexp heq
  rw [h]
  exact ⟨rfl, rfl, rfl⟩

/-- C8 witness: a code with no stored expiry verifies at an arbitrarily
late clock value. -/
theorem C8_missing_expiry_skips_check_witness :
    (verifyOTP [⟨1, "+915551234567", some "123456", none⟩]
        (some (.str "5551234567")) (some (.str "123456")) 999999999999999).resp.status = 200 ∧
    (verifyOTP [⟨1, "+915551234567", some "123456", none⟩]
        (some (.str "5551234567")) (some (.str "123456")) 999999999999999).resp.success = true ∧
    (verifyOTP [⟨1, "+915551234567", some "123456", none⟩]
        (some (.str "5551234567")) (some (.str "123456")) 999999999999999).resp.token =
      some ⟨1, formatPhoneNumber "5551234567", 7⟩ :=
  C8_missing_expiry_skips_check [⟨1, "+915551234567", some "123456", none⟩]
    "5551234567" "123456" 999999999999999 ⟨1, "+915551234567", some "123456", none⟩
    "123456" (by decide) (by decide) (by decide) (by decide) (by decide) (by decide)

/-- C9: the phone normalizer is not injective — the two distinct raw
inputs `"5551234"` and `"915551234"` both normalize to `"+915551234"`,
because a digit sequence already starting with `91` is never given the
default prefix. -/
theorem C9_normalizer_not_injective :
    formatPhoneNumber "5551234" = "+915551234" ∧
    formatPhoneNumber "915551234" = "+915551234" ∧
    "5551234" ≠ "915551234" := by
  decide

/-- C10 counterexample: the claim says every present non-string
`phoneNumber` gets a 500; but the JSON number `0` is present, not a
string, and falsy, so `sendOTP` answers 400 "Phone number is required"
instead. -/
theorem C10_falsy_number_counterexample :
    ((sendOTP ⟨false, false, true⟩ [] (some (.num 0)) 0 0 1).1).status = 400 ∧
    ((sendOTP ⟨false, false, true⟩ [] (some (.num 0)) 0 0 1).1).message =
      "Phone number is required" := by
  decide

/-- C10 (amended): if `sendOTP` receives a `phoneNumber` that is present,
truthy and not a string (for example a nonzero JSON number), normalization
throws, the generic handler catches, and the response is HTTP 500 with the
generic failure envelope and no store write; a falsy non-string value
(`0`, `false`, `null`) instead gets the 400 validation response. -/
theorem C10_nonstring_phone_500 (cfg : SendConfig) (store : UserStore)
    (pv : JsonVal) (k now nid : Nat)
    (hstr : pv.isStr = false) (htr : pv.truthy = true) :
    ((sendOTP cfg store (some pv) k now nid).1).status = 500 ∧
    ((sendOTP cfg store (some pv) k now nid).1).message =
      "Failed to generate and send OTP" ∧
    (sendOTP cfg store (some pv) k now nid).2 = store := by
  have hfmt : formatPhoneNumberVal pv = none := by
    rcases pv with s | n | b | _ <;> first | rfl | simp [JsonVal.isStr] at hstr
  have hpv : optTruthy (some pv) = true := htr
  simp [sendOTP, hpv, hfmt, baseResp]

/-- C10 witness: the amended theorem at the JSON number `5551234567`. -/
theorem C10_nonstring_phone_500_witness :
    ((sendOTP ⟨false, false, true⟩ [] (some (.num 5551234567)) 0 0 1).1).status = 500 ∧
    ((sendOTP ⟨false, false, true⟩ [] (some (.num 5551234567)) 0 0 1).1).message =
      "Failed to generate and send OTP" ∧
    (sendOTP ⟨false, false, true⟩ [] (some (.num 5551234567)) 0 0 1).2 = [] :=
  C10_nonstring_phone_500 ⟨false, false, true⟩ [] (.num 5551234567) 0 0 1
    (by decide) (by decide)
